import Mathlib

/-!
Verification of the spectral-store / contamination-compositor / flux-calibrator
core of the `inspector` repository, as a shallow embedding in Lean 4.

Conventions of the embedding:
* `numpy` float arrays carry exact rationals (`ℚ`); 2-D arrays are a shape
  (`height`, `width`) together with a total indexing function `data y x`
  (row-major, `a[y][x]`), values outside the shape being irrelevant.
* Python `dict`s become association lists with update-in-place-or-append
  semantics, which preserves insertion order exactly as CPython does.
* A Python function that can raise becomes an `Option`/`Except` returning
  function, `none`/`.error` marking the propagated exception.
* IEEE-754 special values matter only to `utils.div0`; for it the values are
  modelled by `FloatVal` (finite rational, ±infinity, NaN).  The calibration
  pipeline is modelled in exact arithmetic (overflow to infinity ignored).
-/

/-- A 2-D numpy array: shape plus row-major indexing function (`data y x` is
`a[y][x]`).  Values of `data` outside `0 ≤ y < height`, `0 ≤ x < width` are
immaterial. -/
structure Array2 where
  height : ℕ
  width : ℕ
  data : ℤ → ℤ → ℚ

/-- Source `utils.bounding_indices`: overlap region of two boxes `(left, bottom,
width, height)`, returned as half-open index ranges `(left, bottom, right,
top)` in the local frame of `box1` and of `box2`; `none` when the boxes do not
intersect (the source returns the pair `None, None`). -/
def bounding_indices (box1 box2 : ℤ × ℤ × ℤ × ℤ) :
    Option ((ℤ × ℤ × ℤ × ℤ) × (ℤ × ℤ × ℤ × ℤ)) :=
  let (left1, bottom1, width1, height1) := box1
  let (left2, bottom2, width2, height2) := box2
  -- the offset between the corners of the two boxes:
  let x_offset := left1 - left2
  let y_offset := bottom1 - bottom2
  -- the coordinates of box1's boundaries, in the coordinate system of box2:
  let left := x_offset
  let bottom := y_offset
  let right := width1 + x_offset
  let top := height1 + y_offset
  -- clip the boundaries to the region within box2:
  let left2c := max 0 left
  let bottom2c := max 0 bottom
  let right2c := min width2 right
  let top2c := min height2 top
  -- the region of overlap, in the coordinate system of box1:
  let left1c := max 0 (left2c - x_offset)
  let right1c := min width1 (right2c - x_offset)
  let bottom1c := max 0 (bottom2c - y_offset)
  let top1c := min height1 (top2c - y_offset)
  if left1c < right1c ∧ bottom1c < top1c ∧ left2c < right2c ∧ bottom2c < top2c then
    some ((left1c, bottom1c, right1c, top1c), (left2c, bottom2c, right2c, top2c))
  else
    none

/-- Source `utils.apply_contaminant`: add one contaminant's model onto the running
contamination canvas.  Each argument is `((left, bottom), array)`.  The numpy
slice assignment `canvas[cb:ct, cl:cr] += contam[b:t, l:r]` is rendered
pointwise: a canvas pixel `(y, x)` inside the canvas-local overlap region
receives the contaminant pixel at the corresponding contaminant-local offset
(the two regions always have equal shape — proved below as the C10 theorem —
so this is exactly the numpy elementwise add).  The source mutates the canvas
in place; here the updated canvas is returned. -/
def apply_contaminant (contaminant_flux total_contamination : (ℤ × ℤ) × Array2) : Array2 :=
  let ((contam_left, contam_bottom), contam) := contaminant_flux
  let ((canvas_left, canvas_bottom), canvas) := total_contamination
  let contam_box := (contam_left, contam_bottom, (contam.width : ℤ), (contam.height : ℤ))
  let canvas_box := (canvas_left, canvas_bottom, (canvas.width : ℤ), (canvas.height : ℤ))
  match bounding_indices contam_box canvas_box with
  | none =>
      -- the contaminant does not intersect the canvas
      canvas
  | some ((contam_l, contam_b, _contam_r, _contam_t), (can_l, can_b, can_r, can_t)) =>
      { canvas with
        data := fun y x =>
          if can_b ≤ y ∧ y < can_t ∧ can_l ≤ x ∧ x < can_r then
            canvas.data y x + contam.data (contam_b + (y - can_b)) (contam_l + (x - can_l))
          else
            canvas.data y x }

/-! ## The spectral store (`reader.py`) -/

/-- Source `reader.DecontaminatedSpectrum`: the decontamination products of a
single spectrum.  The `contaminants` table lists `(id, order)` pairs; ids are
kept as strings, matching the `str(object_id)` conversions of the source. -/
structure DecontaminatedSpectrum where
  id : String
  science : Array2
  variance : Array2
  mask : Array2
  contamination : Array2
  contaminants : List (String × ℕ)
  x_offset : ℤ
  y_offset : ℤ

/-- Source `reader.ModelSpectrum`: one model spectrum of one object and order. -/
structure ModelSpectrum where
  id : String
  order : ℕ
  pixels : Array2
  x_offset : ℤ
  y_offset : ℤ

/-- Lookup in a Python `dict` modelled as an insertion-ordered association
list (`d[k]`, with `none` for the `KeyError` case). -/
def lookupA {κ α : Type} [DecidableEq κ] : List (κ × α) → κ → Option α
  | [], _ => none
  | (k, v) :: rest, key => if k = key then some v else lookupA rest key

/-- Update-or-append for a Python `dict` (`d[k] = v`), preserving insertion
order exactly as CPython does. -/
def updateA {κ α : Type} [DecidableEq κ] : List (κ × α) → κ → α → List (κ × α)
  | [], key, value => [(key, value)]
  | (k, v) :: rest, key, value =>
    if k = key then (key, value) :: rest else (k, v) :: updateA rest key value

/-- Source `reader.DecontaminatedSpectraCollection`: the mutable store state.
Field names follow the source attributes (`_field_id`, `_exposure_time`,
`_exposure_id`, `_exposure_grism_position`, `_hdf5_spectra`, `_hdf5_models`). -/
structure Store where
  field_id : Option String
  exposure_time : List (ℕ × ℚ)
  exposure_id : List (ℕ × String)
  exposure_grism_position : List (ℕ × String)
  hdf5_spectra : List (ℕ × List (ℕ × List (String × DecontaminatedSpectrum)))
  hdf5_models : List (ℕ × List (ℕ × List (String × List (ℕ × ModelSpectrum))))

/-- The state of a freshly constructed `DecontaminatedSpectraCollection`. -/
def emptyStore : Store :=
  { field_id := none
    exposure_time := []
    exposure_id := []
    exposure_grism_position := []
    hdf5_spectra := []
    hdf5_models := [] }

/-- Source `DecontaminatedSpectraCollection.get_object_ids`: the keys of
`self._hdf5_spectra[dither][detector]`; `none` models the `KeyError` raised
when the dither or detector was never loaded. -/
def get_object_ids (st : Store) (dither detector : ℕ) : Option (List String) :=
  (lookupA st.hdf5_spectra dither).bind fun dmap =>
    (lookupA dmap detector).map fun omap => omap.map Prod.fst

/-- The spectrum lookup `self._hdf5_spectra[dither][detector][str(object_id)]`
inside `get_spectrum`, with `none` for a `KeyError` at any level. -/
def lookup_spectrum (st : Store) (dither detector : ℕ) (object_id : String) :
    Option DecontaminatedSpectrum :=
  (lookupA st.hdf5_spectra dither).bind fun dmap =>
    (lookupA dmap detector).bind fun omap => lookupA omap object_id

/-- Source `DecontaminatedSpectraCollection.get_model`: a `ValueError` for
order 0, otherwise the model or the `None` sentinel when any key level is
absent (the `except KeyError` branch). -/
def get_model (st : Store) (dither detector : ℕ) (object_id : String) (order : ℕ) :
    Except String (Option ModelSpectrum) :=
  if order = 0 then
    .error "Models are not created for zeroth-order spectra."
  else
    .ok ((lookupA st.hdf5_models dither).bind fun dmap =>
      (lookupA dmap detector).bind fun omap =>
        (lookupA omap object_id).bind fun ordmap => lookupA ordmap order)

/-- Source `DecontaminatedSpectraCollection._compute_total_contamination`:
fold the contaminant table onto the spectrum's `contamination` canvas.  The
source mutates the canvas array in place; here the updated spectrum is
returned.  The result is `none` when an exception escapes: the source
dereferences `contam.x_offset` without checking `get_model`'s `None` sentinel,
so a nonzero-order contaminant with no stored model raises `AttributeError`. -/
def compute_total_contamination (st : Store) (dither detector : ℕ)
    (decontaminated_spectrum : DecontaminatedSpectrum) : Option DecontaminatedSpectrum :=
  let x_offset := decontaminated_spectrum.x_offset
  let y_offset := decontaminated_spectrum.y_offset
  let step : Option Array2 → String × ℕ → Option Array2 := fun acc contaminant =>
    acc.bind fun canvas =>
      let (model_id, model_order) := contaminant
      if model_order ≠ 0 then  -- we do not attempt to model the zeroth-order spectra
        match get_model st dither detector model_id model_order with
        | .error _ => none       -- a ValueError would propagate (unreachable: order ≠ 0)
        | .ok none => none       -- AttributeError: None has no attribute x_offset
        | .ok (some contam) =>
            some (apply_contaminant ((contam.x_offset, contam.y_offset), contam.pixels)
              ((x_offset, y_offset), canvas))
      else
        some canvas
  (decontaminated_spectrum.contaminants.foldl step
      (some decontaminated_spectrum.contamination)).map
    fun canvas => { decontaminated_spectrum with contamination := canvas }

/-- Write a spectrum back into the nested index, rendering the source's
in-place mutation of the stored `DecontaminatedSpectrum` object. -/
def store_spectrum (st : Store) (dither detector : ℕ) (object_id : String)
    (spec : DecontaminatedSpectrum) : Store :=
  let dmap := (lookupA st.hdf5_spectra dither).getD []
  let omap := (lookupA dmap detector).getD []
  { st with hdf5_spectra :=
      updateA st.hdf5_spectra dither (updateA dmap detector (updateA omap object_id spec)) }

/-- Source `DecontaminatedSpectraCollection.get_spectrum`: a missing key at
any level yields the `None` sentinel (the `except KeyError` branch); a present
spectrum is passed through `_compute_total_contamination` on every call.  The
outer `none` models an exception escaping from that computation; otherwise the
result carries the returned value and the post-call store. -/
def get_spectrum (st : Store) (dither detector : ℕ) (object_id : String) :
    Option (Option DecontaminatedSpectrum × Store) :=
  match lookup_spectrum st dither detector object_id with
  | none => some (none, st)
  | some spec =>
    match compute_total_contamination st dither detector spec with
    | none => none
    | some spec2 => some (some spec2, store_spectrum st dither detector object_id spec2)

/-- A Python generator object: the items still to be yielded.  Iterating
consumes them; an exhausted generator yields nothing and stays exhausted. -/
structure PyGen (α : Type) where
  remaining : List α

/-- Exhaustive iteration of a generator (Python `list(gen)`): the yielded
items together with the generator in its post-iteration state. -/
def iterate_all {α : Type} (g : PyGen α) : List α × PyGen α :=
  (g.remaining, ⟨[]⟩)

/-- The body of `get_spectra`: one `get_spectrum` call per object id, the
store state threading through the successive calls; `none` when one of the
calls raises. -/
def yield_spectra (dither detector : ℕ) :
    Store → List String → Option (List (Option DecontaminatedSpectrum) × Store)
  | st, [] => some ([], st)
  | st, object_id :: rest =>
    match get_spectrum st dither detector object_id with
    | none => none
    | some (spec, st2) =>
      match yield_spectra dither detector st2 rest with
      | none => none
      | some (items, st3) => some (spec :: items, st3)

/-- Source `DecontaminatedSpectraCollection.get_spectra`: a generator looping
over `get_object_ids(dither, detector)` and yielding
`get_spectrum(dither, detector, str(object_id))` for each.  The generator is
modelled by the full sequence of items it will yield (`PyGen`); `none` models
the `KeyError` from `get_object_ids` or an exception inside `get_spectrum`. -/
def get_spectra (st : Store) (dither detector : ℕ) :
    Option (PyGen (Option DecontaminatedSpectrum) × Store) :=
  match get_object_ids st dither detector with
  | none => none
  | some ids => (yield_spectra dither detector st ids).map fun p => (PyGen.mk p.1, p.2)

/-! ## Loading a container (`reader._load_hdf5` and helpers) -/

/-- One per-object entry of the "Decontaminated Spectra" group of a container:
the attributes and datasets read by `_load_spectrum_from_hdf5_group`. -/
structure SpectrumGroup where
  object_id : String
  x_offset : ℤ
  y_offset : ℤ
  science : Array2
  variance : Array2
  mask : Array2
  contaminants : List (String × ℕ)

/-- One per-order dataset of the "Model Spectra" group of a container: the
attributes and pixels read by `_load_model_from_hdf5_dataset`. -/
structure ModelDataset where
  order : ℕ
  pixels : Array2
  x_offset : ℤ
  y_offset : ℤ

/-- An already-parsed HDF5 container: the attributes and the two groups that
`_load_hdf5` reads. -/
structure Container where
  file_format : String
  dither : ℕ
  detector : ℕ
  exp_time : ℚ
  grism_position : String
  exposure_id : String
  field_id : String
  spectra : List SpectrumGroup
  models : List (String × List ModelDataset)

/-- The error classes a container load can raise.  The source raises
`ValueError` in every case; the spec's taxonomy distinguishes the format-tag
check (`FormatError`), the dither/detector/exposure-time domain checks
(`RangeError`) and the field-id check (`FieldMismatchError`).  `modelError`
covers the exceptions of the model-loading loop (a `NameError` for an object
with no datasets and no predecessor, or the order setter's `ValueError`). -/
inductive LoadError where
  | formatError
  | rangeError
  | fieldMismatch
  | modelError
  deriving DecidableEq

/-- Source `DecontaminatedSpectraCollection._load_spectrum_from_hdf5_group`:
insert one spectrum, with `contamination` initialized to
`np.zeros_like(spec.science)`. -/
def load_spectrum_from_group (st : Store) (dither detector : ℕ)
    (group : SpectrumGroup) : Store :=
  let dmap := (lookupA st.hdf5_spectra dither).getD []
  let omap := (lookupA dmap detector).getD []
  let spec : DecontaminatedSpectrum :=
    { id := group.object_id
      science := group.science
      variance := group.variance
      mask := group.mask
      contamination := { group.science with data := fun _ _ => 0 }
      contaminants := group.contaminants
      x_offset := group.x_offset
      y_offset := group.y_offset }
  let newSpectra :=
    updateA st.hdf5_spectra dither (updateA dmap detector (updateA omap group.object_id spec))
  { st with hdf5_spectra := newSpectra }

/-- Source `DecontaminatedSpectraCollection._load_spectra_from_hdf5`: insert
every spectrum of the container's spectra group. -/
def load_spectra_from_hdf5 (st : Store) (dither detector : ℕ)
    (groups : List SpectrumGroup) : Store :=
  groups.foldl (fun s g => load_spectrum_from_group s dither detector g) st

/-- Source `DecontaminatedSpectraCollection._load_model_from_hdf5_dataset`:
insert one model into the four-level index. -/
def load_model_from_dataset (st : Store) (dither detector : ℕ) (object_id : String)
    (dataset : ModelDataset) : Store :=
  let dmap := (lookupA st.hdf5_models dither).getD []
  let omap := (lookupA dmap detector).getD []
  let ordmap := (lookupA omap object_id).getD []
  let spec : ModelSpectrum :=
    { id := object_id
      order := dataset.order
      pixels := dataset.pixels
      x_offset := dataset.x_offset
      y_offset := dataset.y_offset }
  let inner := updateA omap object_id (updateA ordmap dataset.order spec)
  { st with hdf5_models := updateA st.hdf5_models dither (updateA dmap detector inner) }

/-- Source `DecontaminatedSpectraCollection._load_models_from_hdf5`.  In the
source, the call to `_load_model_from_hdf5_dataset` sits outside the inner
`for order in object_models` loop, so only the last dataset of each object is
stored; an object with no datasets reuses the `model` variable left over from
the previous object, or hits a `NameError` when there is none.  The
`ModelSpectrum.order` setter additionally rejects orders other than 1 and 2
with a `ValueError`.  Both exceptions surface as `modelError`, with the store
as mutated so far. -/
def load_models_from_hdf5 (st : Store) (dither detector : ℕ)
    (models : List (String × List ModelDataset)) : Option LoadError × Store :=
  let step : (Option LoadError × Store × Option ModelDataset) →
      String × List ModelDataset → Option LoadError × Store × Option ModelDataset :=
    fun acc entry =>
      match acc with
      | (some e, s, last) => (some e, s, last)
      | (none, s, last) =>
        let (object_id, object_models) := entry
        match object_models.getLast?.orElse (fun _ => last) with
        | none => (some .modelError, s, none)
        | some dataset =>
          if dataset.order = 1 ∨ dataset.order = 2 then
            (none, load_model_from_dataset s dither detector object_id dataset, some dataset)
          else
            (some .modelError, s, some dataset)
  let result := models.foldl step (none, st, none)
  (result.1, result.2.1)

/-- Source `DecontaminatedSpectraCollection._load_hdf5`: the per-container
load.  The checks run in source order; note that the exposure metadata for the
container's dither is written into the store before the field-id check, so a
field mismatch leaves that metadata behind.  The result pairs the raised error
(if any) with the post-call store state. -/
def load_hdf5 (st : Store) (c : Container) : Option LoadError × Store :=
  if c.file_format ≠ "DecontaminatedSpectraCollection" then (some .formatError, st)
  else if c.dither < 1 ∨ 4 < c.dither then (some .rangeError, st)
  else if c.detector < 1 ∨ 16 < c.detector then (some .rangeError, st)
  else if c.exp_time ≤ 0 then (some .rangeError, st)
  else
    let st1 : Store := { st with
      exposure_time := updateA st.exposure_time c.dither c.exp_time
      exposure_grism_position := updateA st.exposure_grism_position c.dither c.grism_position
      exposure_id := updateA st.exposure_id c.dither c.exposure_id }
    let proceed : Store → Option LoadError × Store := fun s =>
      let s2 := load_spectra_from_hdf5 s c.dither c.detector c.spectra
      load_models_from_hdf5 s2 c.dither c.detector c.models
    match st1.field_id with
    | some fid =>
      if fid ≠ c.field_id then (some .fieldMismatch, st1)
      else proceed st1
    | none => proceed { st1 with field_id := some c.field_id }

/-! ## Flux calibration (`object_tab.PlotSelector._calibrate_spectrum`,
`utils.interp_multiply`, `utils.div0`) -/

/-- Source `np.interp(x, xp, fp)` on an increasing grid, the grid given as the
zipped list of `(xp, fp)` pairs: clamp outside the grid, interpolate linearly
between neighbouring grid points. -/
def np_interp (x : ℚ) : List (ℚ × ℚ) → ℚ
  | [] => 0
  | [(_, f0)] => f0
  | (x0, f0) :: (x1, f1) :: rest =>
    if x ≤ x0 then f0
    else if x ≤ x1 then f0 + (f1 - f0) * (x - x0) / (x1 - x0)
    else np_interp x ((x1, f1) :: rest)

/-- Source `utils.interp_multiply`: interpolate the second data series onto the
first series' wavelengths and multiply elementwise. -/
def interp_multiply (w1 data1 w2 data2 : List ℚ) : List ℚ :=
  let data2_interp := w1.map fun x => np_interp x (w2.zip data2)
  List.zipWith (· * ·) data2_interp data1

/-- The array `dl = np.fabs(np.diff(wavelengths))` of
`PlotSelector._calibrate_spectrum`. -/
def abs_diffs (wavelengths : List ℚ) : List ℚ :=
  List.zipWith (fun a b => |b - a|) wavelengths wavelengths.tail

/-- The per-pixel wavelength bin widths `np.append(dl, dl[0])` of
`PlotSelector._calibrate_spectrum`: numpy appends `dl[0]` at the end, so the
last bin reuses the first bin's width.  (`dl[0]` raises `IndexError` for a
grid of fewer than two wavelengths; the claims only concern grids of length at
least two, for which `headD` is exact.) -/
def bin_widths (wavelengths : List ℚ) : List ℚ :=
  abs_diffs wavelengths ++ [(abs_diffs wavelengths).headD 0]

/-- Exact-arithmetic shadow of `utils.div0` used inside the calibration
pipeline: on finite rational operands the only non-finite quotients arise
from a zero divisor, which `div0` maps to zero.  (The IEEE special values are
modelled separately by `div0` on `FloatVal` below.) -/
def div0_rat (a b : ℚ) : ℚ :=
  if b = 0 then 0 else a / b

/-- Source `PlotSelector._calibrate_spectrum`: `none` models the early return
after the missing-sensitivity message box; otherwise the signal is divided by
`bin_width * exposure_time` elementwise and multiplied by the interpolated
elementwise inverse of the dither's sensitivity curve. -/
def calibrate_spectrum (sensitivities : Option (List ℚ × List ℚ)) (exposure_time : ℚ)
    (spec_1d wavelengths : List ℚ) : Option (List ℚ) :=
  match sensitivities with
  | none => none
  | some (sensitivity_wav, sensitivity_value) =>
    let denom := (bin_widths wavelengths).map (· * exposure_time)
    let inverse_sensitivity := sensitivity_value.map (div0_rat 1)
    some (interp_multiply wavelengths (List.zipWith (· / ·) spec_1d denom)
      sensitivity_wav inverse_sensitivity)

/-! ## IEEE special values for `utils.div0` -/

/-- An IEEE-754 double as far as `utils.div0` observes it: a finite value
(kept exact), one of the infinities, or NaN.  Signed zero is not
distinguished (numpy's `1.0 / -0.0` sign plays no role in `div0`, whose
non-finite results are all replaced by zero). -/
inductive FloatVal where
  | finite : ℚ → FloatVal
  | posInf
  | negInf
  | nan
  deriving DecidableEq

/-- Predicate of `np.isfinite`. -/
def FloatVal.isFinite : FloatVal → Bool
  | .finite _ => true
  | _ => false

/-- Scalar semantics of `np.true_divide` under `np.errstate(divide='ignore',
invalid='ignore')`: IEEE-754 division with diagnostics suppressed — the
operation always yields a value, never an exception. -/
def true_divide : FloatVal → FloatVal → FloatVal
  | .nan, _ => .nan
  | _, .nan => .nan
  | .posInf, .posInf => .nan
  | .posInf, .negInf => .nan
  | .negInf, .posInf => .nan
  | .negInf, .negInf => .nan
  | .posInf, .finite b => if b < 0 then .negInf else .posInf
  | .negInf, .finite b => if b < 0 then .posInf else .negInf
  | .finite _, .posInf => .finite 0
  | .finite _, .negInf => .finite 0
  | .finite a, .finite b =>
    if b = 0 then
      if a = 0 then .nan
      else if a < 0 then .negInf
      else .posInf
    else .finite (a / b)

/-- Source `utils.div0`: compute `a / b` by `np.true_divide` and replace every
non-finite entry (`-inf`, `inf`, `NaN`) with zero; these are the scalar
semantics of the elementwise array operation. -/
def div0 (a b : FloatVal) : FloatVal :=
  match true_divide a b with
  | .finite c => .finite c
  | _ => .finite 0

/-! ## Concrete fixtures -/

/-- A 1×1 array holding the value `v`. -/
def onePixel (v : ℚ) : Array2 := ⟨1, 1, fun _ _ => v⟩

/-- Demonstration container: field "F", dither 1, detector 1; one spectrum
"obj" whose single contaminant `("c", order 1)` has a stored 1×1 model of
value 1 at the same offset as the spectrum. -/
def demoContainer : Container :=
  { file_format := "DecontaminatedSpectraCollection"
    dither := 1
    detector := 1
    exp_time := 1
    grism_position := "P"
    exposure_id := "E"
    field_id := "F"
    spectra := [{ object_id := "obj", x_offset := 0, y_offset := 0,
                  science := onePixel 5, variance := onePixel 1, mask := onePixel 0,
                  contaminants := [("c", 1)] }]
    models := [("c", [{ order := 1, pixels := onePixel 1, x_offset := 0, y_offset := 0 }])] }

/-- The store after loading `demoContainer` into a fresh collection. -/
def demoStore : Store := (load_hdf5 emptyStore demoContainer).2

/-- Observe, through a `get_spectrum` result, the contamination value at the
pixel `(0, 0)`: the outer `none` is an escaped exception, the inner `none` the
NotFound sentinel. -/
def contamination00 (r : Option (Option DecontaminatedSpectrum × Store)) :
    Option (Option ℚ) :=
  r.map fun p => p.1.map fun spec => spec.contamination.data 0 0

/-- Demonstration container whose spectrum declares a nonzero-order
contaminant `("missing", 1)` for which no model is stored. -/
def missingModelContainer : Container :=
  { demoContainer with
    spectra := [{ object_id := "obj", x_offset := 0, y_offset := 0,
                  science := onePixel 5, variance := onePixel 1, mask := onePixel 0,
                  contaminants := [("missing", 1)] }]
    models := [] }

/-- The store after loading `missingModelContainer` into a fresh collection. -/
def missingModelStore : Store := (load_hdf5 emptyStore missingModelContainer).2

/-- First container for the field-mismatch scenario: field id "F1". -/
def containerF1 : Container :=
  { file_format := "DecontaminatedSpectraCollection"
    dither := 1
    detector := 1
    exp_time := 100
    grism_position := "G1"
    exposure_id := "E1"
    field_id := "F1"
    spectra := []
    models := [] }

/-- Second container for the field-mismatch scenario: field id "F2", its own
exposure metadata for dither 2, and one spectrum of its own. -/
def containerF2 : Container :=
  { file_format := "DecontaminatedSpectraCollection"
    dither := 2
    detector := 2
    exp_time := 200
    grism_position := "G2"
    exposure_id := "E2"
    field_id := "F2"
    spectra := [{ object_id := "obj2", x_offset := 0, y_offset := 0,
                  science := onePixel 1, variance := onePixel 1, mask := onePixel 0,
                  contaminants := [] }]
    models := [] }

/-- The store after loading `containerF1` into a fresh collection. -/
def storeF1 : Store := (load_hdf5 emptyStore containerF1).2

/-- The outcome of then loading `containerF2` into `storeF1`. -/
def loadF2 : Option LoadError × Store := load_hdf5 storeF1 containerF2

/-- Observe, through a `get_spectra` result, how many items the returned
generator yields on a first exhaustive iteration and how many on a second
one. -/
def iteration_lengths (r : Option (PyGen (Option DecontaminatedSpectrum) × Store)) :
    Option (ℕ × ℕ) :=
  r.map fun p =>
    let first := iterate_all p.1
    (first.1.length, (iterate_all first.2).1.length)

/-- The result of `get_spectra` on the demonstration store. -/
def demoSpectraRun : Option (PyGen (Option DecontaminatedSpectrum) × Store) :=
  get_spectra demoStore 1 1

/-- The generator component of `demoSpectraRun`. -/
def demoGen : PyGen (Option DecontaminatedSpectrum) :=
  (demoSpectraRun.getD (⟨[]⟩, emptyStore)).1

/-- The post-call store component of `demoSpectraRun`. -/
def demoPostStore : Store :=
  (demoSpectraRun.getD (⟨[]⟩, emptyStore)).2

/-- Proof-layer abbreviation: the amount `apply_contaminant` adds at one
canvas pixel, determined by the overlap geometry alone (zero outside the
overlap region or when the boxes miss each other). -/
def contribution (contam_left contam_bottom : ℤ) (contam : Array2)
    (canvas_left canvas_bottom : ℤ) (canvas_width canvas_height : ℕ)
    (y x : ℤ) : ℚ :=
  match bounding_indices (contam_left, contam_bottom, (contam.width : ℤ), (contam.height : ℤ))
      (canvas_left, canvas_bottom, (canvas_width : ℤ), (canvas_height : ℤ)) with
  | none => 0
  | some ((contam_l, contam_b, _contam_r, _contam_t), (can_l, can_b, can_r, can_t)) =>
    if can_b ≤ y ∧ y < can_t ∧ can_l ≤ x ∧ x < can_r then
      contam.data (contam_b + (y - can_b)) (contam_l + (x - can_l))
    else 0

/-! ## Overlap-geometry lemmas -/

/-- When the two boxes are separated along either axis, `bounding_indices`
reports no overlap. -/
theorem bounding_indices_disjoint (left1 bottom1 w1 h1 left2 bottom2 w2 h2 : ℤ)
    (hsep : left1 + w1 ≤ left2 ∨ left2 + w2 ≤ left1 ∨
      bottom1 + h1 ≤ bottom2 ∨ bottom2 + h2 ≤ bottom1) :
    bounding_indices (left1, bottom1, w1, h1) (left2, bottom2, w2, h2) = none := by
  simp only [bounding_indices]
  split
  · rename_i hcond
    exact absurd hcond (by omega)
  · rfl

/-- When box1 sits entirely inside box2 and has positive dimensions,
`bounding_indices` returns all of box1 and the corresponding region of
box2. -/
theorem bounding_indices_inside (left1 bottom1 w1 h1 left2 bottom2 w2 h2 : ℤ)
    (hl : left2 ≤ left1) (hr : left1 + w1 ≤ left2 + w2)
    (hb : bottom2 ≤ bottom1) (ht : bottom1 + h1 ≤ bottom2 + h2)
    (hw : 0 < w1) (hh : 0 < h1) :
    bounding_indices (left1, bottom1, w1, h1) (left2, bottom2, w2, h2) =
      some ((0, 0, w1, h1),
        (left1 - left2, bottom1 - bottom2, left1 - left2 + w1, bottom1 - bottom2 + h1)) := by
  simp only [bounding_indices]
  rw [if_pos (by omega)]
  simp only [Option.some.injEq, Prod.mk.injEq]
  omega

/-- C10: whenever `bounding_indices` reports an overlap of two boxes of
positive dimensions, both returned regions are non-empty, lie within their
respective array bounds, and have identical width and identical height, so
the elementwise addition in `apply_contaminant` is always between same-shaped,
in-bounds subarrays. -/
theorem c10_bounding_indices_inbounds_same_shape
    (left1 bottom1 w1 h1 left2 bottom2 w2 h2 : ℤ)
    (l1 b1 r1 t1 l2 b2 r2 t2 : ℤ)
    (hw1 : 0 < w1) (hh1 : 0 < h1) (hw2 : 0 < w2) (hh2 : 0 < h2)
    (h : bounding_indices (left1, bottom1, w1, h1) (left2, bottom2, w2, h2) =
      some ((l1, b1, r1, t1), (l2, b2, r2, t2))) :
    (0 ≤ l1 ∧ l1 < r1 ∧ r1 ≤ w1 ∧ 0 ≤ b1 ∧ b1 < t1 ∧ t1 ≤ h1) ∧
    (0 ≤ l2 ∧ l2 < r2 ∧ r2 ≤ w2 ∧ 0 ≤ b2 ∧ b2 < t2 ∧ t2 ≤ h2) ∧
    r1 - l1 = r2 - l2 ∧ t1 - b1 = t2 - b2 := by
  simp only [bounding_indices] at h
  split at h
  · rename_i hcond
    simp only [Option.some.injEq, Prod.mk.injEq] at h
    omega
  · exact absurd h (by simp)

/-- Witness for C10 at the boxes of the spec's concrete scenario. -/
theorem c10_bounding_indices_witness :
    (0 ≤ (0 : ℤ) ∧ (0 : ℤ) < 2 ∧ (2 : ℤ) ≤ 4 ∧ 0 ≤ (0 : ℤ) ∧ (0 : ℤ) < 2 ∧ (2 : ℤ) ≤ 4) ∧
    (0 ≤ (2 : ℤ) ∧ (2 : ℤ) < 4 ∧ (4 : ℤ) ≤ 4 ∧ 0 ≤ (2 : ℤ) ∧ (2 : ℤ) < 4 ∧ (4 : ℤ) ≤ 4) ∧
    (2 : ℤ) - 0 = 4 - 2 ∧ (2 : ℤ) - 0 = 4 - 2 :=
  c10_bounding_indices_inbounds_same_shape 2 2 4 4 0 0 4 4 0 0 2 2 2 2 4 4
    (by decide) (by decide) (by decide) (by decide) (by decide)

/-- Decomposition of one `apply_contaminant` call at one pixel: the new value
is the old value plus the geometry-determined `contribution`. -/
theorem apply_contaminant_data (contam_left contam_bottom : ℤ) (contam : Array2)
    (canvas_left canvas_bottom : ℤ) (canvas : Array2) (y x : ℤ) :
    (apply_contaminant ((contam_left, contam_bottom), contam)
        ((canvas_left, canvas_bottom), canvas)).data y x =
      canvas.data y x +
        contribution contam_left contam_bottom contam canvas_left canvas_bottom
          canvas.width canvas.height y x := by
  simp only [apply_contaminant, contribution]
  rcases hbi : bounding_indices
      (contam_left, contam_bottom, (contam.width : ℤ), (contam.height : ℤ))
      (canvas_left, canvas_bottom, (canvas.width : ℤ), (canvas.height : ℤ)) with
    _ | ⟨⟨cl, cb, cr, ct⟩, kl, kb, kr, kt⟩
  · simp
  · simp only []
    split
    · rfl
    · simp

/-- One `apply_contaminant` call does not change the canvas height. -/
theorem apply_contaminant_height (contam_left contam_bottom : ℤ) (contam : Array2)
    (canvas_left canvas_bottom : ℤ) (canvas : Array2) :
    (apply_contaminant ((contam_left, contam_bottom), contam)
        ((canvas_left, canvas_bottom), canvas)).height = canvas.height := by
  simp only [apply_contaminant]
  rcases hbi : bounding_indices
      (contam_left, contam_bottom, (contam.width : ℤ), (contam.height : ℤ))
      (canvas_left, canvas_bottom, (canvas.width : ℤ), (canvas.height : ℤ)) with
    _ | ⟨⟨cl, cb, cr, ct⟩, kl, kb, kr, kt⟩
  · rfl
  · rfl

/-- One `apply_contaminant` call does not change the canvas width. -/
theorem apply_contaminant_width (contam_left contam_bottom : ℤ) (contam : Array2)
    (canvas_left canvas_bottom : ℤ) (canvas : Array2) :
    (apply_contaminant ((contam_left, contam_bottom), contam)
        ((canvas_left, canvas_bottom), canvas)).width = canvas.width := by
  simp only [apply_contaminant]
  rcases hbi : bounding_indices
      (contam_left, contam_bottom, (contam.width : ℤ), (contam.height : ℤ))
      (canvas_left, canvas_bottom, (canvas.width : ℤ), (canvas.height : ℤ)) with
    _ | ⟨⟨cl, cb, cr, ct⟩, kl, kb, kr, kt⟩
  · rfl
  · rfl

/-- C5: compositor overlap law.  First: a contaminant whose box is separated
from the canvas box leaves every canvas pixel unchanged.  Second: a
contaminant lying entirely inside the canvas adds every one of its pixels
exactly once to the corresponding canvas pixel.  Third: the concrete scenario
— zero canvas with box (0,0,4,4), ones contaminant with box (2,2,4,4) — gives
a canvas that is 1 exactly on rows 2–3, columns 2–3 and 0 elsewhere. -/
theorem c5_compositor_overlap_law :
    (∀ (contam_left contam_bottom canvas_left canvas_bottom : ℤ) (contam canvas : Array2),
      (contam_left + (contam.width : ℤ) ≤ canvas_left ∨
       canvas_left + (canvas.width : ℤ) ≤ contam_left ∨
       contam_bottom + (contam.height : ℤ) ≤ canvas_bottom ∨
       canvas_bottom + (canvas.height : ℤ) ≤ contam_bottom) →
      ∀ y x : ℤ,
        (apply_contaminant ((contam_left, contam_bottom), contam)
          ((canvas_left, canvas_bottom), canvas)).data y x = canvas.data y x) ∧
    (∀ (contam_left contam_bottom canvas_left canvas_bottom : ℤ) (contam canvas : Array2),
      canvas_left ≤ contam_left →
      contam_left + (contam.width : ℤ) ≤ canvas_left + (canvas.width : ℤ) →
      canvas_bottom ≤ contam_bottom →
      contam_bottom + (contam.height : ℤ) ≤ canvas_bottom + (canvas.height : ℤ) →
      0 < (contam.width : ℤ) → 0 < (contam.height : ℤ) →
      ∀ j i : ℤ, 0 ≤ j → j < (contam.height : ℤ) → 0 ≤ i → i < (contam.width : ℤ) →
        (apply_contaminant ((contam_left, contam_bottom), contam)
            ((canvas_left, canvas_bottom), canvas)).data
          (contam_bottom - canvas_bottom + j) (contam_left - canvas_left + i) =
        canvas.data (contam_bottom - canvas_bottom + j) (contam_left - canvas_left + i) +
          contam.data j i) ∧
    (∀ j i : Fin 4,
      (apply_contaminant ((2, 2), ⟨4, 4, fun _ _ => 1⟩)
        ((0, 0), ⟨4, 4, fun _ _ => 0⟩)).data (j : ℤ) (i : ℤ) =
        if 2 ≤ (j : ℕ) ∧ 2 ≤ (i : ℕ) then 1 else 0) := by
  refine ⟨?_, ?_, ?_⟩
  · intro cl cb kl kb A K hsep y x
    simp only [apply_contaminant]
    rw [bounding_indices_disjoint _ _ _ _ _ _ _ _ hsep]
  · intro cl cb kl kb A K hl hr hb ht hw hh j i hj0 hj1 hi0 hi1
    simp only [apply_contaminant]
    rw [bounding_indices_inside _ _ _ _ _ _ _ _ hl hr hb ht hw hh]
    simp only []
    rw [if_pos (by omega)]
    have e1 : (0 : ℤ) + (cb - kb + j - (cb - kb)) = j := by ring
    have e2 : (0 : ℤ) + (cl - kl + i - (cl - kl)) = i := by ring
    rw [e1, e2]
  · intro j i
    fin_cases j <;> fin_cases i <;>
      norm_num [apply_contaminant, bounding_indices]

/-- Witness for C5 at concrete inputs: a far-away 1×1 contaminant leaves a
4×4 canvas of sevens unchanged at pixel (1,1); a 1×1 contaminant of value 3
fully inside the canvas at offset (2,2) turns pixel (2,2) into 7 + 3. -/
theorem c5_overlap_law_witness :
    (apply_contaminant ((10, 0), onePixel 3) ((0, 0), ⟨4, 4, fun _ _ => 7⟩)).data 1 1 = 7 ∧
    (apply_contaminant ((2, 2), onePixel 3) ((0, 0), ⟨4, 4, fun _ _ => 7⟩)).data
      (2 - 0 + 0) (2 - 0 + 0) =
      (⟨4, 4, fun _ _ => 7⟩ : Array2).data (2 - 0 + 0) (2 - 0 + 0) + (onePixel 3).data 0 0 := by
  constructor
  · exact c5_compositor_overlap_law.1 10 0 0 0 (onePixel 3) ⟨4, 4, fun _ _ => 7⟩
      (by decide) 1 1
  · exact c5_compositor_overlap_law.2.1 2 2 0 0 (onePixel 3) ⟨4, 4, fun _ _ => 7⟩
      (by decide) (by decide) (by decide) (by decide) (by decide) (by decide)
      0 0 (by decide) (by decide) (by decide) (by decide)

/-- C7: accumulating two contaminant models in either order yields the same
canvas, elementwise. -/
theorem c7_apply_contaminant_commutes (canvas_offset : ℤ × ℤ)
    (a b : (ℤ × ℤ) × Array2) (canvas : Array2) (y x : ℤ) :
    (apply_contaminant a (canvas_offset, apply_contaminant b (canvas_offset, canvas))).data y x =
    (apply_contaminant b (canvas_offset, apply_contaminant a (canvas_offset, canvas))).data y x := by
  obtain ⟨ox, oy⟩ := canvas_offset
  obtain ⟨⟨la, ba⟩, A⟩ := a
  obtain ⟨⟨lb, bb⟩, B⟩ := b
  simp only [apply_contaminant_data, apply_contaminant_width, apply_contaminant_height]
  ring

/-- C1 (code bug): on the demonstration store, the first `get_spectrum` call
materializes a contamination of 1 at pixel (0,0), and a second call on the
resulting state yields 2 — the contaminant models are accumulated again
because no "already materialized" flag guards
`_compute_total_contamination`, so the contamination array is not identical
across the two calls as the claim requires. -/
theorem c1_get_spectrum_reaccumulates :
    contamination00 (get_spectrum demoStore 1 1 "obj") = some (some 1) ∧
    contamination00 ((get_spectrum demoStore 1 1 "obj").bind
      fun p => get_spectrum p.2 1 1 "obj") = some (some 2) := by
  constructor <;>
    norm_num [contamination00, get_spectrum, lookup_spectrum, demoStore, load_hdf5,
      emptyStore, demoContainer, load_spectra_from_hdf5, load_spectrum_from_group,
      load_models_from_hdf5, load_model_from_dataset, compute_total_contamination,
      get_model, apply_contaminant, bounding_indices, store_spectrum, lookupA, updateA,
      onePixel]

/-- C2 (code bug): on a store whose spectrum declares the nonzero-order
contaminant ("missing", 1) with no stored model, the spectrum itself is
present, yet `get_spectrum` propagates an exception (the source dereferences
`contam.x_offset` on `get_model`'s `None` sentinel, an `AttributeError`)
instead of skipping the contaminant silently. -/
theorem c2_missing_model_attribute_error :
    (lookup_spectrum missingModelStore 1 1 "obj").isSome = true ∧
    get_spectrum missingModelStore 1 1 "obj" = none := by
  constructor <;>
    norm_num [get_spectrum, lookup_spectrum, missingModelStore, load_hdf5, emptyStore,
      missingModelContainer, demoContainer, load_spectra_from_hdf5,
      load_spectrum_from_group, load_models_from_hdf5, compute_total_contamination,
      get_model, lookupA, updateA, onePixel]

/-- C9: a key absent at any level of the hierarchy makes `get_spectrum` return
the NotFound sentinel with the store untouched — never an exception. -/
theorem c9_get_spectrum_missing_returns_sentinel
    (st : Store) (dither detector : ℕ) (object_id : String)
    (habsent : lookup_spectrum st dither detector object_id = none) :
    get_spectrum st dither detector object_id = some (none, st) := by
  unfold get_spectrum
  rw [habsent]

/-- Witness for C9: the spec's concrete scenario
`get_spectrum(1, 5, "nonexistent")` on the demonstration store. -/
theorem c9_get_spectrum_missing_witness :
    get_spectrum demoStore 1 5 "nonexistent" = some (none, demoStore) :=
  c9_get_spectrum_missing_returns_sentinel demoStore 1 5 "nonexistent" rfl

/-- The generator body yields exactly one item per object id when no call
raises. -/
theorem yield_spectra_length (dither detector : ℕ) :
    ∀ (ids : List String) (st : Store)
      (items : List (Option DecontaminatedSpectrum)) (st2 : Store),
    yield_spectra dither detector st ids = some (items, st2) →
    items.length = ids.length := by
  intro ids
  induction ids with
  | nil =>
    intro st items st2 h
    simp only [yield_spectra, Option.some.injEq, Prod.mk.injEq] at h
    simp [← h.1]
  | cons object_id rest ih =>
    intro st items st2 h
    simp only [yield_spectra] at h
    rcases hg : get_spectrum st dither detector object_id with _ | ⟨spec, st3⟩
    · simp [hg] at h
    · simp only [hg] at h
      rcases hy : yield_spectra dither detector st3 rest with _ | ⟨items2, st4⟩
      · simp [hy] at h
      · simp only [hy, Option.some.injEq, Prod.mk.injEq] at h
        have hlen := ih st3 items2 st4 hy
        rw [← h.1]
        simp [hlen]

/-- C6 (amended): `get_spectra` produces a finite sequence with one entry (the
`get_spectrum` result) per object id of the detector, but the returned value
is a single-use generator: a second exhaustive iteration of the same
generator yields nothing, rather than the same spectra again. -/
theorem c6_generator_single_pass (st : Store) (dither detector : ℕ)
    (g : PyGen (Option DecontaminatedSpectrum)) (st2 : Store) (ids : List String)
    (hids : get_object_ids st dither detector = some ids)
    (h : get_spectra st dither detector = some (g, st2)) :
    (iterate_all g).1.length = ids.length ∧
    (iterate_all (iterate_all g).2).1 = [] := by
  simp only [get_spectra, hids] at h
  rcases hy : yield_spectra dither detector st ids with _ | ⟨items, st3⟩
  · simp [hy] at h
  · simp only [hy, Option.map_some', Option.some.injEq, Prod.mk.injEq] at h
    refine ⟨?_, rfl⟩
    have hlen := yield_spectra_length dither detector ids st items st3 hy
    rw [← h.1]
    simpa [iterate_all] using hlen

/-- Witness for C6 (amended) on the demonstration store. -/
theorem c6_generator_single_pass_witness :
    (iterate_all demoGen).1.length = 1 ∧
    (iterate_all (iterate_all demoGen).2).1 = [] :=
  c6_generator_single_pass demoStore 1 1 demoGen demoPostStore ["obj"] rfl rfl

/-- C6 (counterexample): on the demonstration store the generator returned by
`get_spectra` yields one spectrum on the first exhaustive iteration and
nothing on the second — it is not restartable, so iterating a second time does
not yield the same spectra again. -/
theorem c6_generator_not_restartable :
    iteration_lengths (get_spectra demoStore 1 1) = some (1, 0) := by
  norm_num [iteration_lengths, get_spectra, get_object_ids, yield_spectra, iterate_all,
    get_spectrum, lookup_spectrum, demoStore, load_hdf5, emptyStore, demoContainer,
    load_spectra_from_hdf5, load_spectrum_from_group, load_models_from_hdf5,
    load_model_from_dataset, compute_total_contamination, get_model, apply_contaminant,
    bounding_indices, store_spectrum, lookupA, updateA, onePixel]

/-- C3 (counterexample): loading the field-"F2" container into a store already
holding field "F1" does fail with the field-mismatch error, yet the store
afterwards retains the SECOND container's exposure metadata (exposure time
200, exposure id "E2", grism position "G2" for dither 2), because the source
records them before the field-id check — refuting the claim that only the
first container's data remains. -/
theorem c3_second_container_metadata_retained :
    loadF2.1 = some .fieldMismatch ∧
    lookupA loadF2.2.exposure_time 2 = some 200 ∧
    lookupA loadF2.2.exposure_id 2 = some "E2" ∧
    lookupA loadF2.2.exposure_grism_position 2 = some "G2" := by
  refine ⟨?_, ?_, ?_, ?_⟩ <;>
    norm_num [loadF2, storeF1, load_hdf5, emptyStore, containerF1, containerF2,
      load_spectra_from_hdf5, load_spectrum_from_group, load_models_from_hdf5,
      lookupA, updateA, onePixel, show ("F1" : String) ≠ "F2" from by decide]

/-- C3 (amended): a second container passing the format and range checks but
carrying a different field id makes the load fail with the field-mismatch
error; the spectra index, model index and field id are untouched (so no
spectra or models of the second container are retained), but the second
container's exposure time, grism position and exposure id are recorded for
its dither before the mismatch is detected. -/
theorem c3_field_mismatch_keeps_second_metadata (st : Store) (c : Container)
    (fid : String)
    (hfid : st.field_id = some fid) (hne : fid ≠ c.field_id)
    (hfmt : c.file_format = "DecontaminatedSpectraCollection")
    (hd1 : 1 ≤ c.dither) (hd2 : c.dither ≤ 4)
    (hdet1 : 1 ≤ c.detector) (hdet2 : c.detector ≤ 16)
    (hexp : 0 < c.exp_time) :
    load_hdf5 st c = (some .fieldMismatch,
      { st with
        exposure_time := updateA st.exposure_time c.dither c.exp_time
        exposure_grism_position := updateA st.exposure_grism_position c.dither c.grism_position
        exposure_id := updateA st.exposure_id c.dither c.exposure_id }) := by
  have h1 : ¬(c.file_format ≠ "DecontaminatedSpectraCollection") := by simp [hfmt]
  have h2 : ¬(c.dither < 1 ∨ 4 < c.dither) := by omega
  have h3 : ¬(c.detector < 1 ∨ 16 < c.detector) := by omega
  have h4 : ¬(c.exp_time ≤ 0) := not_le.mpr hexp
  simp only [load_hdf5, if_neg h1, if_neg h2, if_neg h3, if_neg h4]
  simp only [hfid]
  rw [if_pos hne]

/-- Witness for C3 (amended) at the concrete two-container scenario. -/
theorem c3_field_mismatch_witness :
    load_hdf5 storeF1 containerF2 = (some .fieldMismatch,
      { storeF1 with
        exposure_time := updateA storeF1.exposure_time 2 200
        exposure_grism_position := updateA storeF1.exposure_grism_position 2 "G2"
        exposure_id := updateA storeF1.exposure_id 2 "E2" }) :=
  c3_field_mismatch_keeps_second_metadata storeF1 containerF2 "F1" rfl (by decide) rfl
    (by decide) (by decide) (by decide) (by decide) (by norm_num [containerF2])

/-- C8: `div0` is total — its result is always finite (no floating-point
exception escapes), it agrees with `true_divide` wherever the quotient is
finite, it returns 0 wherever the quotient is infinite or NaN, and in
particular a zero divisor always yields a non-finite quotient mapped to 0. -/
theorem c8_div0_total_and_zero_on_nonfinite (a b : FloatVal) :
    (div0 a b).isFinite = true ∧
    (∀ q : ℚ, true_divide a b = .finite q → div0 a b = .finite q) ∧
    ((true_divide a b).isFinite = false → div0 a b = .finite 0) ∧
    (b = .finite 0 → (true_divide a b).isFinite = false ∧ div0 a b = .finite 0) := by
  cases a <;> cases b <;>
    simp only [div0, true_divide, FloatVal.isFinite] <;>
    first
      | (split_ifs <;> simp_all)
      | simp_all

/-- Witness for C8 at `1.0 / 0.0`: the raw quotient is non-finite and `div0`
returns zero. -/
theorem c8_div0_witness :
    (true_divide (.finite 1) (.finite 0)).isFinite = false ∧
    div0 (.finite 1) (.finite 0) = .finite 0 :=
  (c8_div0_total_and_zero_on_nonfinite (.finite 1) (.finite 0)).2.2.2 rfl

/-- Index view of `abs_diffs`: entry `i` is `|w[i+1] - w[i]|`. -/
theorem abs_diffs_getElem (w : List ℚ) (i : ℕ) (a b : ℚ)
    (ha : w[i]? = some a) (hb : w[i + 1]? = some b) :
    (abs_diffs w)[i]? = some |b - a| := by
  simp only [abs_diffs, List.getElem?_zipWith', ha, List.getElem?_tail, hb]
  rfl

/-- The bin-width array of a nonempty wavelength grid has one entry per
wavelength. -/
theorem bin_widths_length (w : List ℚ) (hn : 1 ≤ w.length) :
    (bin_widths w).length = w.length := by
  simp [bin_widths, abs_diffs]
  omega

/-- C4 (amended): for a wavelength grid of length at least 2, the bin-width
array has the grid's length; every entry `i` with a successor wavelength is
the forward difference `|w[i+1] - w[i]|`; its LAST entry (not its first, as
the claim has it) reuses the first bin's width `|w[1] - w[0]|`; and the
calibrated result is the interpolated inverse sensitivity times the signal
divided elementwise by `bin_width * exposure_time`. -/
theorem c4_bin_widths_last_reuses_first (w : List ℚ) (hn : 2 ≤ w.length)
    (s : List ℚ) (t : ℚ) (sw sv : List ℚ) :
    (bin_widths w).length = w.length ∧
    (∀ (i : ℕ) (a b : ℚ), w[i]? = some a → w[i + 1]? = some b →
      (bin_widths w)[i]? = some |b - a|) ∧
    (∀ a b : ℚ, w[0]? = some a → w[1]? = some b →
      (bin_widths w)[w.length - 1]? = some |b - a|) ∧
    calibrate_spectrum (some (sw, sv)) t s w =
      some (interp_multiply w
        (List.zipWith (· / ·) s ((bin_widths w).map (· * t))) sw
        (sv.map (div0_rat 1))) := by
  refine ⟨bin_widths_length w (by omega), ?_, ?_, rfl⟩
  · intro i a b ha hb
    have hi : i + 1 < w.length := by
      have := List.getElem?_eq_some.mp hb
      exact this.1
    rw [bin_widths, List.getElem?_append_left (by simp [abs_diffs]; omega)]
    exact abs_diffs_getElem w i a b ha hb
  · intro a b ha hb
    rcases w with _ | ⟨w0, rest0⟩
    · simp at ha
    rcases rest0 with _ | ⟨w1, rest⟩
    · simp at hb
    simp only [List.getElem?_cons_zero, Option.some.injEq] at ha
    simp only [List.getElem?_cons_succ, List.getElem?_cons_zero, Option.some.injEq] at hb
    have hlen : (abs_diffs (w0 :: w1 :: rest)).length = rest.length + 1 := by
      simp [abs_diffs]
    rw [bin_widths, List.getElem?_append_right (by simp [hlen])]
    simp [abs_diffs, hlen, ha, hb]

/-- C4 (counterexample): for the wavelength grid `[0, 1, 3]` the code's
bin-width array is `[1, 2, 1]` — its entry 1 is `|w[2] - w[1]| = 2`, not the
claimed `bin[1] = |w[1] - w[0]| = 1` (the reused width goes to the LAST slot,
not the first two). -/
theorem c4_first_bin_claim_false :
    bin_widths [0, 1, 3] = [1, 2, 1] ∧
    |(1 : ℚ) - 0| = 1 ∧ ((2 : ℚ) ≠ 1) := by
  norm_num [bin_widths, abs_diffs]

/-- Witness for C4 (amended) on the grid `[0, 1, 3]`. -/
theorem c4_bin_widths_witness :
    (bin_widths [(0 : ℚ), 1, 3]).length = 3 ∧
    (bin_widths [(0 : ℚ), 1, 3])[([(0 : ℚ), 1, 3].length) - 1]? = some |(1 : ℚ) - 0| := by
  have h := c4_bin_widths_last_reuses_first [(0 : ℚ), 1, 3] (by norm_num) [] 1 [] []
  exact ⟨h.1, h.2.2.1 0 1 rfl rfl⟩
